import Mathlib

/-!
Verification of the metrics views of djaodjin-saas (`saas/views/metrics.py`):
HTML dashboard pages and CSV download views for coupons, plans, revenue,
balances, registered users and subscriptions.

The Python module is shallowly embedded below.  Querysets become explicit
lists of records, per-view methods (`get_headings`, `get_filename`,
`queryrow_to_columns`, `get_queryset`, `get_context_data`) become Lean
functions carrying the same names, and byte strings produced by
`str.encode('utf-8')` are distinguished from plain strings by the `Col`
type.  Helpers that the module imports from elsewhere in the repository
(`month_periods`, `monthly_balances`, the queryset mixins, the CSV renderer
base class) are modelled from the specification, as marked in their doc
comments.
-/

/-- A calendar date (the `datetime.date` part of a Python `datetime`). -/
structure Date where
  year : Nat
  month : Nat
  day : Nat
deriving DecidableEq, Repr

/-- Gregorian leap-year rule, as Python's `calendar.isleap`. -/
def isLeap (y : Nat) : Bool :=
  y % 4 == 0 && (y % 100 != 0 || y % 400 == 0)

/-- Number of days in month `m` of year `y` (months outside 1..12 fall to
the default branch; valid dates never use that branch). -/
def daysInMonth (y m : Nat) : Nat :=
  if m == 2 then (if isLeap y then 29 else 28)
  else if m == 4 || m == 6 || m == 9 || m == 11 then 30
  else 31

/-- Zero-based count of calendar months from year 0: the key used to step
one calendar month at a time. -/
def Date.monthIndex (d : Date) : Nat :=
  d.year * 12 + (d.month - 1)

/-- Total order key on dates: lexicographic on (year, month, day), packed
into one natural number (a day is < 32). -/
def Date.key (d : Date) : Nat :=
  d.monthIndex * 32 + d.day

/-- Strict chronological order on dates. -/
def Date.lt (a b : Date) : Prop := a.key < b.key

/-- Chronological order on dates. -/
def Date.le (a b : Date) : Prop := a.key ≤ b.key

instance (a b : Date) : Decidable (Date.lt a b) := by
  unfold Date.lt; infer_instance

instance (a b : Date) : Decidable (Date.le a b) := by
  unfold Date.le; infer_instance

/-- A valid calendar date, within Python's `datetime` year range. -/
def Date.Valid (d : Date) : Prop :=
  1 ≤ d.month ∧ d.month ≤ 12 ∧ 1 ≤ d.day ∧ d.day ≤ daysInMonth d.year d.month
    ∧ 1 ≤ d.year ∧ d.year ≤ 9999

instance (d : Date) : Decidable d.Valid := by
  unfold Date.Valid; infer_instance

/-- The last day of the month with month index `idx`, i.e. the month-end
boundary of that calendar month. -/
def monthEndOfIndex (idx : Nat) : Date :=
  { year := idx / 12, month := idx % 12 + 1,
    day := daysInMonth (idx / 12) (idx % 12 + 1) }

/-- The `i`-th (0-based, chronological) of the 12 trailing month boundaries
ending at `ends_at`: the 11 month-ends of the preceding months, then
`ends_at` itself as the final boundary (the spec requires the last period
to be ≤ the requested end date). -/
def periodAt (ends_at : Date) (i : Nat) : Date :=
  if i = 11 then ends_at
  else monthEndOfIndex (ends_at.monthIndex - 11 + i)

/-- Modelled from the spec: `month_periods` (imported from
`saas.managers.metrics`, not part of the excerpt) computes the ordered
sequence of month-end boundaries walking backward from `ends_at` for 12
iterations, stepping one calendar month at a time, emitted in chronological
order with the last period not after `ends_at`. -/
def month_periods (ends_at : Date) : List Date :=
  (List.range 12).map (periodAt ends_at)

/-- An immutable financial ledger entry `{account, amount, created_at,
organization}` (the `Transaction` model). -/
structure Transaction where
  account : String
  amount : Int
  created_at : Date
  organization : String
deriving DecidableEq, Repr

/-- Modelled from the spec: `monthly_balances` (imported from
`saas.managers.metrics`, not part of the excerpt) produces, for each month
boundary, the pair of the boundary and the cumulative signed sum of the
amounts of the transactions of `(organization, account)` created on or
before that boundary, in chronological order. -/
def monthly_balances (txs : List Transaction) (organization account : String)
    (ends_at : Date) : List (Date × Int) :=
  (month_periods ends_at).map (fun p =>
    (p, ((txs.filter (fun t =>
        t.organization == organization && t.account == account
          && decide (t.created_at.le p))).map (fun t => t.amount)).sum))

/-- Month index of the earliest transaction of `(organization, account)`,
used to state the spec's `months_since_first_transaction`. -/
def firstTransactionMonthIndex (txs : List Transaction)
    (organization account : String) : Option Nat :=
  ((txs.filter (fun t =>
      t.organization == organization && t.account == account)).map
    (fun t => t.created_at.monthIndex)).min?

/-- A `Coupon` as used by this module: a discount code and a percentage. -/
structure Coupon where
  code : String
  percent : Int
deriving DecidableEq, Repr

/-- A user account (`first_name`, `last_name`, `email`, `date_joined`). -/
structure User where
  first_name : String
  last_name : String
  email : String
  date_joined : Date
deriving DecidableEq, Repr

/-- A `Plan` as used by this module (`slug`, `title`, owning organization). -/
structure Plan where
  slug : String
  title : String
  organization : String
deriving DecidableEq, Repr

/-- An `Organization` as used by the subscription rows. -/
structure Organization where
  full_name : String
  email : String
deriving DecidableEq, Repr

/-- A `CartItem`: a user, a plan, an optional coupon association and the
`recorded` flag (whether checkout was finalized into a transaction). -/
structure CartItem where
  coupon : Coupon
  user : User
  plan : Plan
  recorded : Bool
deriving DecidableEq, Repr

/-- A `Subscription`: a subscriber organization on a plan over a validity
window `created_at .. ends_at`. -/
structure Subscription where
  organization : Organization
  plan : Plan
  created_at : Date
  ends_at : Date
deriving DecidableEq, Repr

/-- One CSV column value.  `bytes s` is the result of
`s.encode('utf-8')`, `str s` a plain (unencoded) Python string, `int` a
number and `date` a `datetime.date`. -/
inductive Col where
  | bytes (s : String)
  | str (s : String)
  | int (n : Int)
  | date (d : Date)
deriving DecidableEq, Repr

/-- `s.encode('utf-8')`: a text value encoded at the call site. -/
def pyEncodeUtf8 (s : String) : Col := Col.bytes s

/-- Whether a column value is unencoded text (a plain `str`). -/
def Col.isUnencodedText : Col → Bool
  | Col.str _ => true
  | _ => false

/-- The kind of a column value, used to state which columns are encoded
text, numbers or dates. -/
inductive ColTag where
  | enc
  | txt
  | num
  | dt
deriving DecidableEq, Repr

/-- Classify a column value by kind. -/
def Col.ftag : Col → ColTag
  | Col.bytes _ => ColTag.enc
  | Col.str _ => ColTag.txt
  | Col.int _ => ColTag.num
  | Col.date _ => ColTag.dt

/-- The decimal digit character of `n % 10`. -/
def digitChar (n : Nat) : Char := Char.ofNat (48 + n % 10)

/-- The eight digit characters of `strftime('%Y%m%d')`: the year zero-padded
to four digits, then month and day zero-padded to two (`datetime` years are
at most 9999). -/
def dateDigits (d : Date) : List Char :=
  [digitChar (d.year / 1000), digitChar (d.year / 100), digitChar (d.year / 10),
   digitChar d.year, digitChar (d.month / 10), digitChar d.month,
   digitChar (d.day / 10), digitChar d.day]

/-- `d.strftime('%Y%m%d')`. -/
def strftimeYYYYMMDD (d : Date) : String := String.mk (dateDigits d)

/-- Python string formatting of an optional value: `None` renders as the
text `"None"`. -/
def pyFormatArg : Option String → String
  | none => "None"
  | some s => s

/-- Modelled from the spec: the `CSVDownloadView` renderer (in
`saas.views.download`, not part of the excerpt) writes the heading row
first, then one row per record of the queryset, in iteration order. -/
def csvRows (headings : List Col) (rows : List (List Col)) :
    List (List Col) :=
  headings :: rows

namespace CouponMetricsView

/-- `CouponMetricsView.get_queryset`: the base queryset filtered by
`coupon=self.get_coupon(), recorded=True`.  The base queryset (Django's
`ListView` with `model = CartItem`) is modelled from the spec as the whole
cart-item table. -/
def get_queryset (db : List CartItem) (coupon : Coupon) : List CartItem :=
  db.filter (fun it => it.coupon == coupon && it.recorded)

/-- The `coupon_performance_count` context value of
`CouponMetricsView.get_context_data`:
`CartItem.objects.filter(coupon=self.get_coupon(), recorded=True).count()`. -/
def coupon_performance_count (db : List CartItem) (coupon : Coupon) : Nat :=
  (db.filter (fun it => it.coupon == coupon && it.recorded)).length

end CouponMetricsView

namespace CouponMetricsDownloadView

/-- The class attribute `headings`. -/
def headings : List String := ["Code", "Percentage", "Name", "Email", "Plan"]

/-- `get_headings` returns the class attribute. -/
def get_headings : List String := headings

/-- `get_filename`: `datetime.now().strftime('coupons-%Y%m%d.csv')`. -/
def get_filename (now : Date) : String :=
  "coupons-" ++ strftimeYYYYMMDD now ++ ".csv"

/-- Modelled from the spec: `SmartCouponListMixin.get_queryset` (in
`saas.api.coupons`, not part of the excerpt) returns the coupons matching
the coupon code given by the URL parameters. -/
def coupons_queryset (coupons : List Coupon) (code : String) : List Coupon :=
  coupons.filter (fun c => c.code == code)

/-- `get_queryset`: the cart items related to the coupons selected by the
mixin (`CartItem.objects.filter(coupon__in=coupons)`); note the absence of
any `recorded` filter. -/
def get_queryset (coupons : List Coupon) (items : List CartItem)
    (code : String) : List CartItem :=
  items.filter (fun it => decide (it.coupon ∈ coupons_queryset coupons code))

/-- `queryrow_to_columns` of the coupon download: code, percentage, the
space-joined user name, email and plan slug, with each text field encoded
to UTF-8 at the call site. -/
def queryrow_to_columns (cartitem : CartItem) : List Col :=
  [pyEncodeUtf8 cartitem.coupon.code,
   Col.int cartitem.coupon.percent,
   pyEncodeUtf8 (String.intercalate " "
     [cartitem.user.first_name, cartitem.user.last_name]),
   pyEncodeUtf8 cartitem.user.email,
   pyEncodeUtf8 cartitem.plan.slug]

/-- The CSV document of the coupon download: heading row then one row per
record of the queryset. -/
def csv (coupons : List Coupon) (items : List CartItem) (code : String) :
    List (List Col) :=
  csvRows (get_headings.map Col.str)
    ((get_queryset coupons items code).map queryrow_to_columns)

/-- One full export invocation at time `now`: the computed filename and the
CSV rows. -/
def run (now : Date) (coupons : List Coupon) (items : List CartItem)
    (code : String) : String × List (List Col) :=
  (get_filename now, csv coupons items code)

end CouponMetricsDownloadView

/-- A value inside a table-descriptor entry. -/
inductive JVal where
  | str (s : String)
  | bool (b : Bool)
deriving DecidableEq, Repr

/-- A table-descriptor entry: an ordered dict of key-value pairs. -/
abbrev TableEntry := List (String × JVal)

/-- The keys of a table-descriptor entry, in source order. -/
def entryKeys (e : TableEntry) : List String := e.map (fun kv => kv.1)

/-- A template-context value.  `jsonTables` marks a table list passed
through `json.dumps`; `rawTables` marks one stored as a plain Python
list. -/
inductive CtxVal where
  | str (s : String)
  | jsonTables (ts : List TableEntry)
  | rawTables (ts : List TableEntry)
  | planList (ps : List Plan)
deriving Repr

namespace PlansMetricsView

/-- The `tables` list built by `PlansMetricsView.get_context_data`;
`reverse` is the URL resolver applied to `('saas_api_plan', organization)`. -/
def tables (reverse : String → String → String) (organization : String) :
    List TableEntry :=
  [[("title", JVal.str "Active subscribers"),
    ("key", JVal.str "plan"),
    ("active", JVal.bool true),
    ("location", JVal.str (reverse "saas_api_plan" organization))]]

/-- `PlansMetricsView.get_context_data`: title, the JSON-serialized tables
and the plans of the organization. -/
def get_context_data (reverse : String → String → String)
    (organization : String) (plansDb : List Plan) :
    List (String × CtxVal) :=
  [("title", CtxVal.str "Plans"),
   ("tables", CtxVal.jsonTables (tables reverse organization)),
   ("plans", CtxVal.planList
     (plansDb.filter (fun p => p.organization == organization)))]

end PlansMetricsView

namespace RevenueMetricsView

/-- The `tables` list built by `RevenueMetricsView.get_context_data`. -/
def tables (reverse : String → String → String) (organization : String) :
    List TableEntry :=
  [[("key", JVal.str "cash"),
    ("title", JVal.str "Cash flow"),
    ("unit", JVal.str "$"),
    ("location", JVal.str (reverse "saas_api_revenue" organization))],
   [("key", JVal.str "balances"),
    ("title", JVal.str "Balances"),
    ("unit", JVal.str "$"),
    ("location", JVal.str (reverse "saas_api_balances" organization))],
   [("key", JVal.str "customer"),
    ("title", JVal.str "Customers"),
    ("location", JVal.str (reverse "saas_api_customer" organization))]]

/-- `RevenueMetricsView.get_context_data`: title and the tables list stored
as a plain list (no `json.dumps` in the source). -/
def get_context_data (reverse : String → String → String)
    (organization : String) : List (String × CtxVal) :=
  [("title", CtxVal.str "Revenue"),
   ("tables", CtxVal.rawTables (tables reverse organization))]

end RevenueMetricsView

namespace BalancesDownloadView

/-- The class attribute `queryname`. -/
def queryname : String := "balances"

/-- `get_headings`: the literal `'name'` followed by the month periods
ending at `ends_at` (dates, not strings, in the Python source). -/
def get_headings (ends_at : Date) : List Col :=
  Col.str "name" :: (month_periods ends_at).map Col.date

/-- `get_filename`: `'{}.csv'.format(self.queryname)` — no date segment. -/
def get_filename : String := queryname ++ ".csv"

/-- Modelled from the spec: `Transaction.objects.distinct_accounts()` (a
manager method, not part of the excerpt) returns the distinct account
labels appearing in the transaction ledger. -/
def get_queryset (txs : List Transaction) : List String :=
  (txs.map (fun t => t.account)).dedup

/-- `queryrow_to_columns`: the account label (a plain, unencoded string)
followed by the twelve monthly balances. -/
def queryrow_to_columns (txs : List Transaction) (organization : String)
    (ends_at : Date) (account : String) : List Col :=
  Col.str account :: (monthly_balances txs organization account
    ends_at).map (fun item => Col.int item.2)

/-- The CSV document of the balances download. -/
def csv (txs : List Transaction) (organization : String) (ends_at : Date) :
    List (List Col) :=
  csvRows (get_headings ends_at)
    ((get_queryset txs).map (queryrow_to_columns txs organization ends_at))

end BalancesDownloadView

namespace RegisteredBaseDownloadView

/-- `get_headings` of the registered-users download. -/
def get_headings : List String :=
  ["First name", "Last name", "Email", "Registration Date"]

/-- `get_filename`: `'registered-{}.csv'.format(datetime_or_now()
.strftime('%Y%m%d'))`. -/
def get_filename (now : Date) : String :=
  "registered-" ++ strftimeYYYYMMDD now ++ ".csv"

/-- `queryrow_to_columns`: first name, last name and email encoded to
UTF-8, then the (unencoded) registration date. -/
def queryrow_to_columns (inst : User) : List Col :=
  [pyEncodeUtf8 inst.first_name,
   pyEncodeUtf8 inst.last_name,
   pyEncodeUtf8 inst.email,
   Col.date inst.date_joined]

/-- The CSV document of the registered-users download, for the records its
query source yielded. -/
def csv (users : List User) : List (List Col) :=
  csvRows (get_headings.map Col.str) (users.map queryrow_to_columns)

end RegisteredBaseDownloadView

namespace RegisteredDownloadView

/-- `RegisteredDownloadView` adds `UserSmartListMixin` (query filtering
only) and inherits the whole CSV mapping from the base class. -/
def csv (users : List User) : List (List Col) :=
  RegisteredBaseDownloadView.csv users

end RegisteredDownloadView

namespace SubscriptionBaseDownloadView

/-- The class attribute `subscriber_type = None`. -/
def subscriber_type : Option String := none

/-- `get_headings` shared by the subscription downloads. -/
def get_headings : List String := ["Name", "Email", "Plan", "Since", "Until"]

/-- `get_filename`:
`'subscribers-{}-{}.csv'.format(subscriber_type, now.strftime('%Y%m%d'))`. -/
def get_filename (stype : Option String) (now : Date) : String :=
  "subscribers-" ++ pyFormatArg stype ++ "-" ++ strftimeYYYYMMDD now ++ ".csv"

/-- `queryrow_to_columns` shared by the subscription downloads: subscriber
name, email and plan title encoded to UTF-8, then the (unencoded) start and
end dates. -/
def queryrow_to_columns (inst : Subscription) : List Col :=
  [pyEncodeUtf8 inst.organization.full_name,
   pyEncodeUtf8 inst.organization.email,
   pyEncodeUtf8 inst.plan.title,
   Col.date inst.created_at,
   Col.date inst.ends_at]

end SubscriptionBaseDownloadView

namespace ActiveSubscriptionDownloadView

/-- `subscriber_type = 'active'` set by
`ActiveSubscriptionBaseDownloadView`. -/
def subscriber_type : Option String := some "active"

/-- Inherited from `SubscriptionBaseDownloadView` (no override). -/
def get_headings : List String := SubscriptionBaseDownloadView.get_headings

/-- Inherited from `SubscriptionBaseDownloadView` (no override). -/
def queryrow_to_columns (inst : Subscription) : List Col :=
  SubscriptionBaseDownloadView.queryrow_to_columns inst

/-- Inherited `get_filename`, reading the overridden `subscriber_type`. -/
def get_filename (now : Date) : String :=
  SubscriptionBaseDownloadView.get_filename subscriber_type now

/-- The CSV document of the active-subscriptions download, for the records
its query source yielded. -/
def csv (subscriptions : List Subscription) : List (List Col) :=
  csvRows (get_headings.map Col.str) (subscriptions.map queryrow_to_columns)

/-- One full export invocation at time `now`. -/
def run (now : Date) (subscriptions : List Subscription) :
    String × List (List Col) :=
  (get_filename now, csv subscriptions)

end ActiveSubscriptionDownloadView

namespace ChurnedSubscriptionDownloadView

/-- `subscriber_type = 'churned'` set by
`ChurnedSubscriptionBaseDownloadView`. -/
def subscriber_type : Option String := some "churned"

/-- Inherited from `SubscriptionBaseDownloadView` (no override). -/
def get_headings : List String := SubscriptionBaseDownloadView.get_headings

/-- Inherited from `SubscriptionBaseDownloadView` (no override). -/
def queryrow_to_columns (inst : Subscription) : List Col :=
  SubscriptionBaseDownloadView.queryrow_to_columns inst

/-- Inherited `get_filename`, reading the overridden `subscriber_type`. -/
def get_filename (now : Date) : String :=
  SubscriptionBaseDownloadView.get_filename subscriber_type now

/-- The CSV document of the churned-subscriptions download, for the records
its query source yielded. -/
def csv (subscriptions : List Subscription) : List (List Col) :=
  csvRows (get_headings.map Col.str) (subscriptions.map queryrow_to_columns)

/-- One full export invocation at time `now`. -/
def run (now : Date) (subscriptions : List Subscription) :
    String × List (List Col) :=
  (get_filename now, csv subscriptions)

end ChurnedSubscriptionDownloadView

/-! ## Helper lemmas -/

theorem daysInMonth_le_31 (y m : Nat) : daysInMonth y m ≤ 31 := by
  unfold daysInMonth
  split
  · split <;> norm_num
  · split <;> norm_num

theorem daysInMonth_pos (y m : Nat) : 1 ≤ daysInMonth y m := by
  unfold daysInMonth
  split
  · split <;> norm_num
  · split <;> norm_num

theorem monthIndex_monthEndOfIndex (idx : Nat) :
    (monthEndOfIndex idx).monthIndex = idx := by
  simp only [monthEndOfIndex, Date.monthIndex]
  omega

theorem key_monthEndOfIndex_lt (idx : Nat) (d : Date)
    (h : idx < d.monthIndex) (hd : 1 ≤ d.day) :
    Date.lt (monthEndOfIndex idx) d := by
  have h31 := daysInMonth_le_31 (idx / 12) (idx % 12 + 1)
  simp only [Date.lt, Date.key, monthEndOfIndex, Date.monthIndex] at *
  omega

theorem month_periods_length (ends_at : Date) :
    (month_periods ends_at).length = 12 := by
  simp [month_periods]

theorem monthIndex_ge_12 (d : Date) (h : d.Valid) : 12 ≤ d.monthIndex := by
  obtain ⟨-, -, -, -, hy, -⟩ := h
  simp only [Date.monthIndex]
  omega

theorem periodAt_step (ends_at : Date) (h : ends_at.Valid) (m : Nat)
    (hm : m < 11) :
    Date.lt (periodAt ends_at m) (periodAt ends_at (m + 1))
      ∧ (periodAt ends_at (m + 1)).monthIndex
        = (periodAt ends_at m).monthIndex + 1 := by
  have hidx : 12 ≤ ends_at.monthIndex := monthIndex_ge_12 ends_at h
  have hday : 1 ≤ ends_at.day := h.2.2.1
  by_cases hm1 : m + 1 = 11
  · have hm10 : m = 10 := by omega
    subst hm10
    have e1 : periodAt ends_at (10 + 1) = ends_at := by norm_num [periodAt]
    have e2 : periodAt ends_at 10
        = monthEndOfIndex (ends_at.monthIndex - 11 + 10) := by
      norm_num [periodAt]
    rw [e1, e2]
    refine ⟨key_monthEndOfIndex_lt _ _ (by omega) hday, ?_⟩
    rw [monthIndex_monthEndOfIndex]
    omega
  · simp only [periodAt, if_neg hm1, if_neg (by omega : m ≠ 11)]
    constructor
    · apply key_monthEndOfIndex_lt
      · rw [monthIndex_monthEndOfIndex]
        omega
      · exact daysInMonth_pos _ _
    · rw [monthIndex_monthEndOfIndex, monthIndex_monthEndOfIndex]
      omega

theorem month_periods_chain (ends_at : Date) (h : ends_at.Valid) :
    List.Chain' (fun a b => Date.lt a b ∧ b.monthIndex = a.monthIndex + 1)
      (month_periods ends_at) := by
  rw [month_periods, List.chain'_map]
  rw [show (12 : Nat) = 11 + 1 from rfl, List.chain'_range_succ]
  intro m hm
  exact periodAt_step ends_at h m hm

theorem month_periods_le (ends_at : Date) (h : ends_at.Valid) :
    ∀ p ∈ month_periods ends_at, Date.le p ends_at := by
  intro p hp
  simp only [month_periods, List.mem_map, List.mem_range] at hp
  obtain ⟨i, hi, rfl⟩ := hp
  unfold periodAt
  split
  · exact Nat.le_refl _
  · apply Nat.le_of_lt
    apply key_monthEndOfIndex_lt
    · have := monthIndex_ge_12 ends_at h
      omega
    · exact h.2.2.1

theorem digitChar_isDigit (n : Nat) : (digitChar n).isDigit = true := by
  unfold digitChar
  generalize hm : n % 10 = k
  have hk : k < 10 := hm ▸ Nat.mod_lt _ (by norm_num)
  interval_cases k <;> decide

theorem dateDigits_all_digits (d : Date) :
    (dateDigits d).all Char.isDigit = true := by
  simp [dateDigits, digitChar_isDigit]

theorem active_filename_eq (now : Date) :
    ActiveSubscriptionDownloadView.get_filename now
      = "subscribers-active-" ++ String.mk (dateDigits now) ++ ".csv" := by
  have hfold : ("subscribers-" ++ pyFormatArg (some "active") ++ "-")
      = "subscribers-active-" := by rfl
  unfold ActiveSubscriptionDownloadView.get_filename
    SubscriptionBaseDownloadView.get_filename
    ActiveSubscriptionDownloadView.subscriber_type strftimeYYYYMMDD
  rw [hfold]

theorem churned_filename_eq (now : Date) :
    ChurnedSubscriptionDownloadView.get_filename now
      = "subscribers-churned-" ++ String.mk (dateDigits now) ++ ".csv" := by
  have hfold : ("subscribers-" ++ pyFormatArg (some "churned") ++ "-")
      = "subscribers-churned-" := by rfl
  unfold ChurnedSubscriptionDownloadView.get_filename
    SubscriptionBaseDownloadView.get_filename
    ChurnedSubscriptionDownloadView.subscriber_type strftimeYYYYMMDD
  rw [hfold]

/-! ## Claims -/

/-- C2: for every download view, the row produced by `queryrow_to_columns`
for any record has the same length as the view's `get_headings` (for the
balances view: one monthly balance per month-period heading, plus the
`name` column matching the account column). -/
theorem C2_row_lengths_match_headings (it : CartItem) (u : User)
    (s : Subscription) (txs : List Transaction)
    (organization account : String) (ends_at : Date) :
    (CouponMetricsDownloadView.queryrow_to_columns it).length
        = CouponMetricsDownloadView.get_headings.length
      ∧ (RegisteredBaseDownloadView.queryrow_to_columns u).length
        = RegisteredBaseDownloadView.get_headings.length
      ∧ (SubscriptionBaseDownloadView.queryrow_to_columns s).length
        = SubscriptionBaseDownloadView.get_headings.length
      ∧ (BalancesDownloadView.queryrow_to_columns txs organization ends_at
          account).length
        = (BalancesDownloadView.get_headings ends_at).length := by
  refine ⟨rfl, rfl, rfl, ?_⟩
  simp [BalancesDownloadView.queryrow_to_columns,
    BalancesDownloadView.get_headings, monthly_balances]

/-- Concrete cart items used to refute C1: two recorded and one unrecorded
item, all carrying the coupon SAVE10. -/
def c1Items : List CartItem :=
  [⟨⟨"SAVE10", 10⟩, ⟨"Ann", "Ada", "ann@example.com", ⟨2024, 1, 1⟩⟩,
    ⟨"basic", "Basic", "cowork"⟩, true⟩,
   ⟨⟨"SAVE10", 10⟩, ⟨"Bob", "Bee", "bob@example.com", ⟨2024, 1, 2⟩⟩,
    ⟨"basic", "Basic", "cowork"⟩, true⟩,
   ⟨⟨"SAVE10", 10⟩, ⟨"Cyd", "Cee", "cyd@example.com", ⟨2024, 1, 3⟩⟩,
    ⟨"basic", "Basic", "cowork"⟩, false⟩]

/-- C1 counterexample: a coupon SAVE10 applied to 2 recorded and 1
unrecorded cart item yields all 3 items in the download queryset — the
unrecorded item produces a row too, so the export has 3 data rows, not
2. -/
theorem C1_counterexample :
    CouponMetricsDownloadView.get_queryset [⟨"SAVE10", 10⟩] c1Items "SAVE10"
        = c1Items
      ∧ c1Items.map CartItem.recorded = [true, true, false]
      ∧ (CouponMetricsDownloadView.csv [⟨"SAVE10", 10⟩] c1Items
          "SAVE10").length = 1 + 3
      ∧ ¬ (CouponMetricsDownloadView.csv [⟨"SAVE10", 10⟩] c1Items
          "SAVE10").length = 1 + 2 := by
  refine ⟨by decide, by decide, by decide, by decide⟩

/-- C1 (amended): `CouponMetricsDownloadView` emits one data row per cart
item whose coupon matches the requested code, with no filter on
`recorded` (unlike the HTML `CouponMetricsView`); so 2 recorded and 1
unrecorded matching items yield 3 data rows. -/
theorem C1_download_rows_ignore_recorded (coupons : List Coupon)
    (items : List CartItem) (code : String) :
    (∀ it : CartItem,
        it ∈ CouponMetricsDownloadView.get_queryset coupons items code
          ↔ it ∈ items ∧ it.coupon ∈ coupons ∧ it.coupon.code = code)
      ∧ (CouponMetricsDownloadView.csv coupons items code).length
        = 1 + (CouponMetricsDownloadView.get_queryset coupons items
            code).length := by
  constructor
  · intro it
    simp [CouponMetricsDownloadView.get_queryset,
      CouponMetricsDownloadView.coupons_queryset, List.mem_filter,
      and_assoc]
  · simp [CouponMetricsDownloadView.csv, csvRows, Nat.add_comm]

/-- C4 counterexample: `RevenueMetricsView` stores its `tables` context
value as a plain list (no `json.dumps`), and its entries carry the keys
`key`, `title`, `unit`, `location` — the third without `unit` — none of
them the claimed `title`, `key`, `active`, `location`. -/
theorem C4_counterexample :
    ((RevenueMetricsView.get_context_data (fun _ org => org)
          "cowork").lookup "tables"
        = some (CtxVal.rawTables
            (RevenueMetricsView.tables (fun _ org => org) "cowork")))
      ∧ (RevenueMetricsView.tables (fun _ org => org) "cowork").map entryKeys
        = [["key", "title", "unit", "location"],
           ["key", "title", "unit", "location"],
           ["key", "title", "location"]]
      ∧ (∀ ts : List TableEntry,
          CtxVal.rawTables (RevenueMetricsView.tables (fun _ org => org)
              "cowork")
            ≠ CtxVal.jsonTables ts)
      ∧ ¬ "active" ∈ (["key", "title", "unit", "location"] : List String) :=
  ⟨rfl, rfl, fun _ h => CtxVal.noConfusion h, by decide⟩

/-- C4 (amended): `PlansMetricsView` embeds a JSON-serialized
table-descriptor whose single entry has exactly the keys `title`, `key`,
`active`, `location`; `RevenueMetricsView` instead stores an unserialized
list whose entries have keys `key`, `title`, `unit`, `location` (the
`customer` entry without `unit`, and none with `active`). -/
theorem C4_dashboard_tables (rv : String → String → String) (org : String)
    (plansDb : List Plan) :
    ((PlansMetricsView.get_context_data rv org plansDb).lookup "tables"
        = some (CtxVal.jsonTables (PlansMetricsView.tables rv org)))
      ∧ (PlansMetricsView.tables rv org).map entryKeys
        = [["title", "key", "active", "location"]]
      ∧ ((RevenueMetricsView.get_context_data rv org).lookup "tables"
        = some (CtxVal.rawTables (RevenueMetricsView.tables rv org)))
      ∧ (RevenueMetricsView.tables rv org).map entryKeys
        = [["key", "title", "unit", "location"],
           ["key", "title", "unit", "location"],
           ["key", "title", "location"]] :=
  ⟨rfl, rfl, rfl, rfl⟩

/-- C6 counterexample: `BalancesDownloadView.queryrow_to_columns` emits the
textual account-name column as a plain, unencoded string. -/
theorem C6_counterexample :
    BalancesDownloadView.queryrow_to_columns [] "cowork" ⟨2024, 3, 31⟩ "cash"
        = Col.str "cash" :: List.replicate 12 (Col.int 0)
      ∧ Col.isUnencodedText (Col.str "cash") = true := by
  refine ⟨by decide, rfl⟩

/-- C6 (amended): in the coupon, registered-users and subscription
downloads every textual column is encoded to UTF-8 at the call site and
the numeric and date columns are emitted unencoded; the balances download
however emits its textual account-name column unencoded, followed by the
twelve numeric balances. -/
theorem C6_column_encoding (it : CartItem) (u : User) (s : Subscription)
    (txs : List Transaction) (organization account : String)
    (ends_at : Date) :
    (CouponMetricsDownloadView.queryrow_to_columns it).map Col.ftag
        = [ColTag.enc, ColTag.num, ColTag.enc, ColTag.enc, ColTag.enc]
      ∧ (RegisteredBaseDownloadView.queryrow_to_columns u).map Col.ftag
        = [ColTag.enc, ColTag.enc, ColTag.enc, ColTag.dt]
      ∧ (SubscriptionBaseDownloadView.queryrow_to_columns s).map Col.ftag
        = [ColTag.enc, ColTag.enc, ColTag.enc, ColTag.dt, ColTag.dt]
      ∧ (BalancesDownloadView.queryrow_to_columns txs organization ends_at
          account).map Col.ftag
        = ColTag.txt :: List.replicate 12 ColTag.num := by
  refine ⟨rfl, rfl, rfl, ?_⟩
  have hlen : (monthly_balances txs organization account ends_at).length
      = 12 := by
    simp [monthly_balances, month_periods]
  simp only [BalancesDownloadView.queryrow_to_columns, List.map_cons,
    List.map_map]
  rw [show (Col.ftag ∘ fun item : Date × Int => Col.int item.2)
      = fun _ => ColTag.num from rfl]
  rw [List.map_const', hlen]
  rfl

/-- C3 counterexample: with the spec's own scenario (transactions +100 on
2024-01-05 and -30 on 2024-03-10 in account `cash`, balances ending
2024-03-31) the sequence has 12 entries, not
`min(12, months_since_first_transaction+1) = 3`. -/
theorem C3_counterexample :
    (monthly_balances
        [⟨"cash", 100, ⟨2024, 1, 5⟩, "O"⟩, ⟨"cash", -30, ⟨2024, 3, 10⟩, "O"⟩]
        "O" "cash" ⟨2024, 3, 31⟩).length = 12
      ∧ firstTransactionMonthIndex
          [⟨"cash", 100, ⟨2024, 1, 5⟩, "O"⟩,
           ⟨"cash", -30, ⟨2024, 3, 10⟩, "O"⟩] "O" "cash"
        = some (Date.monthIndex ⟨2024, 1, 5⟩)
      ∧ min 12 (Date.monthIndex ⟨2024, 3, 31⟩
          - Date.monthIndex ⟨2024, 1, 5⟩ + 1) = 3
      ∧ (12 : Nat) ≠ 3 := by
  refine ⟨?_, by decide, by decide, by decide⟩
  simp [monthly_balances, month_periods]

/-- C3 (amended): for every valid `ends_at` the monthly-balance sequence
has exactly 12 entries (regardless of when the first transaction falls),
its period dates are strictly increasing, consecutive periods are one
calendar month apart, and the last period is not after `ends_at`. -/
theorem C3_monthly_balances_periods (txs : List Transaction)
    (organization account : String) (ends_at : Date) (h : ends_at.Valid) :
    (monthly_balances txs organization account ends_at).length = 12
      ∧ List.Chain'
          (fun a b => Date.lt a.1 b.1 ∧ b.1.monthIndex = a.1.monthIndex + 1)
          (monthly_balances txs organization account ends_at)
      ∧ ∀ p ∈ monthly_balances txs organization account ends_at,
          Date.le p.1 ends_at := by
  refine ⟨?_, ?_, ?_⟩
  · simp [monthly_balances, month_periods]
  · rw [monthly_balances, List.chain'_map]
    exact month_periods_chain ends_at h
  · intro p hp
    rw [monthly_balances] at hp
    simp only [List.mem_map] at hp
    obtain ⟨q, hq, rfl⟩ := hp
    exact month_periods_le ends_at h q hq

/-- C3 witness: the amended theorem applied at the concrete end date
2024-03-31 with an empty ledger. -/
theorem C3_monthly_balances_periods_witness :
    Date.Valid ⟨2024, 3, 31⟩
      ∧ ((monthly_balances [] "cowork" "cash" ⟨2024, 3, 31⟩).length = 12
        ∧ List.Chain'
            (fun a b => Date.lt a.1 b.1 ∧ b.1.monthIndex = a.1.monthIndex + 1)
            (monthly_balances [] "cowork" "cash" ⟨2024, 3, 31⟩)
        ∧ ∀ p ∈ monthly_balances [] "cowork" "cash" ⟨2024, 3, 31⟩,
            Date.le p.1 ⟨2024, 3, 31⟩) :=
  ⟨by decide,
   C3_monthly_balances_periods [] "cowork" "cash" ⟨2024, 3, 31⟩ (by decide)⟩

/-- C5: every dated download filename is `<report-key>-<YYYYMMDD>.csv`
with an eight-digit current date (`coupons`, `registered`,
`subscribers-active`, `subscribers-churned`), and the balances filename is
`balances.csv`. -/
theorem C5_filenames (today : Date) :
    (∃ ds : List Char, ds.length = 8 ∧ ds.all Char.isDigit = true
        ∧ CouponMetricsDownloadView.get_filename today
          = "coupons-" ++ String.mk ds ++ ".csv"
        ∧ RegisteredBaseDownloadView.get_filename today
          = "registered-" ++ String.mk ds ++ ".csv"
        ∧ ActiveSubscriptionDownloadView.get_filename today
          = "subscribers-active-" ++ String.mk ds ++ ".csv"
        ∧ ChurnedSubscriptionDownloadView.get_filename today
          = "subscribers-churned-" ++ String.mk ds ++ ".csv")
      ∧ BalancesDownloadView.get_filename = "balances.csv" :=
  ⟨⟨dateDigits today, rfl, dateDigits_all_digits today, rfl, rfl,
    active_filename_eq today, churned_filename_eq today⟩, rfl⟩

/-- C7: the export pipeline is deterministic — two invocations of the same
download view at different times but with identical filter parameters and
identical records produce identical CSV rows (the CSV part of `run` does
not depend on the invocation time, which only enters the filename). -/
theorem C7_exports_deterministic (t1 t2 : Date) (coupons : List Coupon)
    (items : List CartItem) (code : String) (subs : List Subscription) :
    (CouponMetricsDownloadView.run t1 coupons items code).2
        = (CouponMetricsDownloadView.run t2 coupons items code).2
      ∧ (ActiveSubscriptionDownloadView.run t1 subs).2
        = (ActiveSubscriptionDownloadView.run t2 subs).2
      ∧ (ChurnedSubscriptionDownloadView.run t1 subs).2
        = (ChurnedSubscriptionDownloadView.run t2 subs).2 :=
  ⟨rfl, rfl, rfl⟩

/-- C8: when the registered-users query source yields no records, the CSV
of `RegisteredDownloadView` is exactly the heading row
`['First name', 'Last name', 'Email', 'Registration Date']` and no data
rows. -/
theorem C8_registered_empty_csv :
    RegisteredDownloadView.csv []
      = [[Col.str "First name", Col.str "Last name", Col.str "Email",
          Col.str "Registration Date"]] := rfl

/-- C9: in `CouponMetricsView`, the `coupon_performance_count` context
value equals the length of the view's unpaginated queryset — both apply
the filter `coupon = get_coupon(), recorded = True` to the cart-item
table. -/
theorem C9_count_matches_queryset (db : List CartItem) (coupon : Coupon) :
    CouponMetricsView.coupon_performance_count db coupon
      = (CouponMetricsView.get_queryset db coupon).length := rfl

/-- C10: the active and churned subscription downloads share the single
record mapping and headings of `SubscriptionBaseDownloadView`, and their
filenames differ only in the `subscriber_type` segment. -/
theorem C10_subscription_views_share_mapping :
    (∀ s : Subscription,
        ActiveSubscriptionDownloadView.queryrow_to_columns s
          = ChurnedSubscriptionDownloadView.queryrow_to_columns s)
      ∧ ActiveSubscriptionDownloadView.get_headings
          = ["Name", "Email", "Plan", "Since", "Until"]
      ∧ ChurnedSubscriptionDownloadView.get_headings
          = ["Name", "Email", "Plan", "Since", "Until"]
      ∧ (∀ now : Date,
          ActiveSubscriptionDownloadView.get_filename now
              = "subscribers-active-" ++ String.mk (dateDigits now) ++ ".csv"
            ∧ ChurnedSubscriptionDownloadView.get_filename now
              = "subscribers-churned-" ++ String.mk (dateDigits now)
                  ++ ".csv") :=
  ⟨fun _ => rfl, rfl, rfl,
   fun now => ⟨active_filename_eq now, churned_filename_eq now⟩⟩

